import Mathlib

/-
Verification of the multi-source earthquake fusion and scoring pipeline
(src/backend/main.py) against its natural-language specification.

Numbers are embedded as exact rationals (ℚ).  Calls into external numeric
libraries that compute transcendental functions (math.sqrt, numpy log / log10,
the 10**x power used for seismic energy) are represented by an explicit oracle
structure `RealOps`; every theorem that needs a property of such a function
states it as a hypothesis.  Geodesic distance (geopy) is likewise passed
as an explicit distance-function argument.  Outputs of the fitted sklearn
models (RandomForest, XGBoost, IsolationForest) are external black boxes per
the specification and are passed in as oracle values.
-/

set_option autoImplicit false

namespace Quake

/-- Oracle for the transcendental real functions used by the source
(math.sqrt, np.log10, np.log, and x ↦ 10 ** x). -/
structure RealOps where
  sqrt : ℚ → ℚ
  log10 : ℚ → ℚ
  ln : ℚ → ℚ
  pow10 : ℚ → ℚ
  geodesicKm : ℚ × ℚ → ℚ × ℚ → ℚ

/-- Event record as consumed by InternationalEarthquakeService._remove_duplicates.
The `time` field holds the result of datetime.fromisoformat on the raw time
string: `none` when parsing raises (the source catches the exception). -/
structure SourcedEvent where
  magnitude : ℚ
  latitude : ℚ
  longitude : ℚ
  time : Option ℚ
  deriving DecidableEq, Repr

/-- Embedded time difference of _remove_duplicates: the source computes both
parses inside one try block and sets time_diff = 0 when either raises. -/
def timeDiffSec (a b : SourcedEvent) : ℚ :=
  match a.time, b.time with
  | some ta, some tb => |ta - tb|
  | _, _ => 0

/-- Duplicate test of _remove_duplicates (main.py lines 1805-1827): candidate
`e` is a duplicate of previously kept `ex` when time difference < 1800 s AND
distance < 10 km AND magnitude difference < 0.5. -/
def isDuplicate (dist : ℚ × ℚ → ℚ × ℚ → ℚ) (e ex : SourcedEvent) : Bool :=
  decide (timeDiffSec e ex < 1800 ∧
    dist (e.latitude, e.longitude) (ex.latitude, ex.longitude) < 10 ∧
    |e.magnitude - ex.magnitude| < 1/2)

/-- One step of the deduplication scan: keep `e` unless it duplicates some
already-kept event. -/
def dedupStep (dist : ℚ × ℚ → ℚ × ℚ → ℚ) (acc : List SourcedEvent)
    (e : SourcedEvent) : List SourcedEvent :=
  if acc.any (fun ex => isDuplicate dist e ex) then acc else acc ++ [e]

/-- Embedding of InternationalEarthquakeService._remove_duplicates
(main.py lines 1798-1832). -/
def removeDuplicates (dist : ℚ × ℚ → ℚ × ℚ → ℚ)
    (eqs : List SourcedEvent) : List SourcedEvent :=
  eqs.foldl (dedupStep dist) []

lemma timeDiffSec_none_left (a b : SourcedEvent) (h : a.time = none) :
    timeDiffSec a b = 0 := by
  unfold timeDiffSec
  rw [h]

lemma dedup_extend (dist : ℚ × ℚ → ℚ × ℚ → ℚ) :
    ∀ (xs acc : List SourcedEvent), ∃ t,
      List.foldl (dedupStep dist) acc xs = acc ++ t ∧
      List.foldl (dedupStep dist) acc t = acc ++ t := by
  intro xs
  induction xs with
  | nil => exact fun acc => ⟨[], by simp, by simp⟩
  | cons e rest ih =>
    intro acc
    by_cases h : acc.any (fun ex => isDuplicate dist e ex) = true
    · obtain ⟨t, h1, h2⟩ := ih acc
      refine ⟨t, ?_, h2⟩
      simpa [dedupStep, h] using h1
    · obtain ⟨t, h1, h2⟩ := ih (acc ++ [e])
      refine ⟨e :: t, ?_, ?_⟩
      · simpa [dedupStep, h] using h1
      · have : List.foldl (dedupStep dist) acc (e :: t)
            = List.foldl (dedupStep dist) (acc ++ [e]) t := by
          simp [dedupStep, h]
        rw [this, h2]
        simp

lemma dedup_keeps_all (dist : ℚ × ℚ → ℚ × ℚ → ℚ) :
    ∀ (xs acc : List SourcedEvent),
      (∀ a ∈ acc, ∀ b ∈ xs, isDuplicate dist b a = false) →
      xs.Pairwise (fun a b => isDuplicate dist b a = false) →
      List.foldl (dedupStep dist) acc xs = acc ++ xs := by
  intro xs
  induction xs with
  | nil => simp
  | cons e rest ih =>
    intro acc hacc hpw
    have hstep : dedupStep dist acc e = acc ++ [e] := by
      have hany : acc.any (fun ex => isDuplicate dist e ex) = false := by
        rw [List.any_eq_false]
        intro a ha
        simp [hacc a ha e (by simp)]
      simp [dedupStep, hany]
    have hrest : List.foldl (dedupStep dist) (acc ++ [e]) rest
        = (acc ++ [e]) ++ rest := by
      apply ih
      · intro a ha b hb
        rcases List.mem_append.mp ha with h1 | h1
        · exact hacc a h1 b (by simp [hb])
        · have : a = e := by simpa using h1
          subst this
          exact (List.pairwise_cons.mp hpw).1 b hb
      · exact (List.pairwise_cons.mp hpw).2
    calc List.foldl (dedupStep dist) acc (e :: rest)
        = List.foldl (dedupStep dist) (acc ++ [e]) rest := by rw [List.foldl_cons, hstep]
      _ = (acc ++ [e]) ++ rest := hrest
      _ = acc ++ e :: rest := by simp

/-- Claim C6: running the deduplicator on its own output returns the output
unchanged, for every input list and every distance function. -/
theorem C6_dedup_idempotent (dist : ℚ × ℚ → ℚ × ℚ → ℚ)
    (xs : List SourcedEvent) :
    removeDuplicates dist (removeDuplicates dist xs) = removeDuplicates dist xs := by
  obtain ⟨t, h1, h2⟩ := dedup_extend dist xs []
  simp only [List.nil_append] at h1 h2
  unfold removeDuplicates
  rw [h1, h2]

lemma isDuplicate_eq_false_of_sep (dist : ℚ × ℚ → ℚ × ℚ → ℚ)
    (a b : SourcedEvent)
    (h : 10 ≤ dist (b.latitude, b.longitude) (a.latitude, a.longitude) ∨
      1800 ≤ timeDiffSec b a ∨ 1/2 ≤ |b.magnitude - a.magnitude|) :
    isDuplicate dist b a = false := by
  unfold isDuplicate
  rw [decide_eq_false_iff_not]
  rintro ⟨h1, h2, h3⟩
  rcases h with h | h | h <;> linarith

/-- Claim C7, amended: a pair of events at distance ≥ 10 km, or ≥ 1800 s
apart, or differing by ≥ 0.5 in magnitude is never identified as a duplicate
pair, so a list in which EVERY pair is so separated survives deduplication
unchanged.  (As originally stated the claim is false: an event of such a
pair can still be discarded as a duplicate of a third event.) -/
theorem C7_separated_pairs_survive (dist : ℚ × ℚ → ℚ × ℚ → ℚ)
    (xs : List SourcedEvent)
    (h : xs.Pairwise (fun a b =>
      10 ≤ dist (b.latitude, b.longitude) (a.latitude, a.longitude) ∨
      1800 ≤ timeDiffSec b a ∨ 1/2 ≤ |b.magnitude - a.magnitude|)) :
    removeDuplicates dist xs = xs := by
  have := dedup_keeps_all dist xs []
  simp only [List.nil_append] at this
  apply this
  · intro a ha
    simp at ha
  · exact h.imp (fun hab => isDuplicate_eq_false_of_sep dist _ _ hab)

/-- Distance oracle for the concrete dedup scenarios: all events involved sit
at identical coordinates, where the true geodesic distance is exactly 0. -/
def cexDist : ℚ × ℚ → ℚ × ℚ → ℚ := fun _ _ => 0

def cexA : SourcedEvent := ⟨3, 0, 0, some 0⟩

def cexB : SourcedEvent := ⟨31/10, 0, 0, some 100⟩

def cexC : SourcedEvent := ⟨31/10, 0, 0, some 100000⟩

/-- Claim C7, counterexample to the original statement: in the list
[cexA, cexB, cexC] the pair (cexB, cexC) is separated by ≥ 1800 seconds,
yet cexB does not survive deduplication (it is discarded as a duplicate of
cexA). -/
theorem C7_counterexample :
    (10 ≤ cexDist (cexC.latitude, cexC.longitude) (cexB.latitude, cexB.longitude) ∨
      1800 ≤ timeDiffSec cexC cexB ∨ 1/2 ≤ |cexC.magnitude - cexB.magnitude|) ∧
    cexB ∈ [cexA, cexB, cexC] ∧ cexC ∈ [cexA, cexB, cexC] ∧
    cexB ∉ removeDuplicates cexDist [cexA, cexB, cexC] := by
  refine ⟨Or.inr (Or.inl ?_), by simp, by simp, ?_⟩
  · norm_num [timeDiffSec, cexB, cexC]
  · norm_num [abs, removeDuplicates, dedupStep, isDuplicate, timeDiffSec, cexDist,
      cexA, cexB, cexC]

theorem C7_separated_pairs_survive_witness :
    removeDuplicates cexDist [cexA, cexC] = [cexA, cexC] :=
  C7_separated_pairs_survive cexDist [cexA, cexC] (by
    norm_num [List.pairwise_cons, timeDiffSec, cexA, cexC])

/-- Claim C10: when a timestamp fails to parse the deduplicator treats the
time difference as 0 seconds, and consequently an event with an unparseable
timestamp is discarded whenever some previously kept event is within 10 km
and 0.5 magnitude of it, regardless of true time separation. -/
theorem C10_unparseable_time_discarded :
    (∀ (a b : SourcedEvent), a.time = none → timeDiffSec a b = 0) ∧
    ∀ (dist : ℚ × ℚ → ℚ × ℚ → ℚ) (pre post : List SourcedEvent)
      (e : SourcedEvent), e.time = none →
      (∃ k ∈ removeDuplicates dist pre,
        dist (e.latitude, e.longitude) (k.latitude, k.longitude) < 10 ∧
        |e.magnitude - k.magnitude| < 1/2) →
      removeDuplicates dist (pre ++ e :: post) = removeDuplicates dist (pre ++ post) := by
  constructor
  · exact fun a b h => timeDiffSec_none_left a b h
  · rintro dist pre post e hnone ⟨k, hk, hd, hm⟩
    unfold removeDuplicates
    rw [List.foldl_append, List.foldl_append, List.foldl_cons]
    have hstep : dedupStep dist (List.foldl (dedupStep dist) [] pre) e
        = List.foldl (dedupStep dist) [] pre := by
      unfold dedupStep
      rw [if_pos]
      apply List.any_eq_true.mpr
      refine ⟨k, hk, ?_⟩
      unfold isDuplicate
      rw [decide_eq_true_eq]
      exact ⟨by rw [timeDiffSec_none_left e k hnone]; norm_num, hd, hm⟩
    rw [hstep]

def cexE : SourcedEvent := ⟨3, 0, 0, none⟩

theorem C10_unparseable_time_discarded_witness :
    removeDuplicates cexDist [cexA, cexE] = removeDuplicates cexDist [cexA] :=
  C10_unparseable_time_discarded.2 cexDist [cexA] [] cexE rfl
    ⟨cexA, by norm_num [removeDuplicates, dedupStep, cexA],
      by norm_num [cexDist], by norm_num [abs, cexA, cexE]⟩

/-- Arithmetic mean as computed by np.mean.  Lean division by zero yields 0
for the empty list; every call site in the source guards non-emptiness. -/
def mean (xs : List ℚ) : ℚ := xs.sum / (xs.length : ℚ)

/-- Population variance as used by np.std (mean squared deviation). -/
def variance (xs : List ℚ) : ℚ := mean (xs.map (fun x => (x - mean xs) ^ 2))

/-- Standard deviation np.std: square root via the real-function oracle. -/
def stdDev (T : RealOps) (xs : List ℚ) : ℚ := T.sqrt (variance xs)

/-- Slope of the degree-1 least-squares fit of ys against xs, the closed form
of the first coefficient returned by np.polyfit(xs, ys, 1). -/
def lsqSlopeXY (xs ys : List ℚ) : ℚ :=
  let n : ℚ := (xs.length : ℚ)
  let sx := xs.sum
  let sy := ys.sum
  let sxy := ((xs.zip ys).map (fun p => p.1 * p.2)).sum
  let sxx := (xs.map (fun x => x ^ 2)).sum
  (n * sxy - sx * sy) / (n * sxx - sx ^ 2)

def indexList (n : ℕ) : List ℚ := (List.range n).map (fun i => (i : ℚ))

/-- Slope of the least-squares fit of ys against indices 0,1,2,…
(np.polyfit(np.arange(len(ys)), ys, 1)). -/
def lsqSlope (ys : List ℚ) : ℚ := lsqSlopeXY (indexList ys.length) ys

def det3 (a b c d e f g h i : ℚ) : ℚ :=
  a * (e * i - f * h) - b * (d * i - f * g) + c * (d * h - e * g)

/-- Leading (quadratic) coefficient of the degree-2 least-squares fit of ys
against indices 0,1,2,…, by Cramer on the normal equations; the closed form
of coeffs[0] from np.polyfit(x, ys, 2). -/
def polyfit2Lead (ys : List ℚ) : ℚ :=
  let xs := indexList ys.length
  let s0 : ℚ := (ys.length : ℚ)
  let s1 := xs.sum
  let s2 := (xs.map (fun x => x ^ 2)).sum
  let s3 := (xs.map (fun x => x ^ 3)).sum
  let s4 := (xs.map (fun x => x ^ 4)).sum
  let t0 := ys.sum
  let t1 := ((xs.zip ys).map (fun p => p.1 * p.2)).sum
  let t2 := ((xs.zip ys).map (fun p => p.1 ^ 2 * p.2)).sum
  det3 t2 s3 s2 t1 s2 s1 t0 s1 s0 / det3 s4 s3 s2 s3 s2 s1 s2 s1 s0

/-- Running cumulative sums, np.cumsum. -/
def cumsum (xs : List ℚ) : List ℚ := (xs.scanl (fun a b => a + b) 0).tail

/-- Embedding of np.arange(a, b, step): a, a+step, … with
ceil((b−a)/step) elements. -/
def arange (a b step : ℚ) : List ℚ :=
  (List.range (Int.toNat ⌈(b - a) / step⌉)).map (fun k => a + (k : ℚ) * step)

/-- Rounding to two decimal places, as the display rounding round(x, 2) of
the source (ties here round half-up; no claim depends on tie direction). -/
def round2 (x : ℚ) : ℚ := ((round (x * 100) : ℤ) : ℚ) / 100

/-- Rounding to three decimal places, round(x, 3). -/
def round3 (x : ℚ) : ℚ := ((round (x * 1000) : ℤ) : ℚ) / 1000

def minQ (xs : List ℚ) : ℚ := (xs.min?).getD 0

def maxQ (xs : List ℚ) : ℚ := (xs.max?).getD 0

/-- Canonical earthquake event after normalization (dataclass EarthquakeData),
as consumed by the scorer and predictor.  `time` is the parsed occurred_at
instant in Unix seconds; the Normalizer guarantees it parses (events that do
not are dropped), and the scorer parses it unguarded.  The source sorts
events by the ISO-8601 time string, whose lexicographic order on normalized
strings coincides with the order of the parsed instants. -/
structure Event where
  magnitude : ℚ
  latitude : ℚ
  longitude : ℚ
  depth : ℚ
  time : ℚ
  deriving DecidableEq, Repr

/-- Embedding of _calculate_gutenberg_richter_score (main.py 2591-2627):
b-value from the magnitude-frequency curve, clamped to [0.1, 2.0], default
1.0 for fewer than 10 events or fewer than 3 usable bins. -/
def calcGutenbergRichter (T : RealOps) (eqs : List Event) : ℚ :=
  if eqs.length < 10 then 1 else
  let mags := eqs.map (fun e => e.magnitude)
  let magBins := arange (minQ mags) (maxQ mags + 1/10) (1/10)
  if magBins.length < 3 then 1 else
  let counts := (magBins.map
    (fun b => ((mags.filter (fun m => b ≤ m)).length : ℚ))).takeWhile
      (fun c => decide (0 < c))
  if counts.length < 3 then 1 else
  let slope := lsqSlopeXY (magBins.take counts.length) (counts.map T.log10)
  max (1/10) (min 2 (-slope))

/-- Embedding of _calculate_temporal_clustering_score (main.py 2629-2659):
coefficient of variation of inter-event gaps in hours, mapped into
[0.1, 1.0]; 0.1 for fewer than 3 events, 0.5 when the mean gap is 0. -/
def calcTemporalClustering (T : RealOps) (eqs : List Event) : ℚ :=
  if eqs.length < 3 then 1/10 else
  let times := List.insertionSort (fun a b : ℚ => a ≤ b) (eqs.map (fun e => e.time))
  let intervals := (times.zip times.tail).map (fun p => |(p.1 - p.2) / 3600|)
  if intervals = [] then 1/10 else
  let meanInterval := mean intervals
  if meanInterval = 0 then 1/2 else
  min 1 (max (1/10) (stdDev T intervals / meanInterval / 2))

/-- Embedding of _calculate_spatial_clustering_score (main.py 2661-2689):
inverse coefficient of variation of distances to the query point, mapped
into [0.1, 1.0]; 0.1 for fewer than 3 events, 0.5 when the mean distance
is 0.  The geodesic call is total here (oracle), so the per-event
try/continue of the source never drops a distance. -/
def calcSpatialClustering (T : RealOps) (eqs : List Event)
    (centerLat centerLon : ℚ) : ℚ :=
  if eqs.length < 3 then 1/10 else
  let distances := eqs.map
    (fun e => T.geodesicKm (centerLat, centerLon) (e.latitude, e.longitude))
  if distances.length < 3 then 1/10 else
  let meanDistance := mean distances
  if meanDistance = 0 then 1/2 else
  max (1/10) (min 1 (1 - stdDev T distances / meanDistance / 3))

/-- Simplified high-risk zone table of _get_fast_regional_risk
(main.py 2326-2332): (latitude, longitude, risk). -/
def highRiskZonesFast : List (ℚ × ℚ × ℚ) :=
  [(35.7, 139.7, 0.9), (37.7, -122.4, 0.85), (41.0, 29.0, 0.8),
   (-33.4, -70.6, 0.85), (28.6, 77.2, 0.7)]

/-- Loop body of _get_fast_regional_risk: fold one zone into the running
maximum, with the fast planar distance approximation
sqrt(dlat² + dlon²) × 111. -/
def fastRegionalStep (T : RealOps) (lat lon : ℚ) (maxRisk : ℚ)
    (z : ℚ × ℚ × ℚ) : ℚ :=
  let approxDistance := T.sqrt ((lat - z.1) ^ 2 + (lon - z.2.1) ^ 2) * 111
  if approxDistance < 500 then
    max maxRisk (z.2.2 * max 0 (1 - approxDistance / 500))
  else maxRisk

/-- Embedding of _get_fast_regional_risk (main.py 2323-2346): maximum of the
floor 0.1 and inverse-distance-weighted zone risks within 500 km. -/
def getFastRegionalRisk (T : RealOps) (lat lon : ℚ) : ℚ :=
  highRiskZonesFast.foldl (fastRegionalStep T lat lon) (1/10)

/-- Embedding of _calculate_tectonic_stress_index (main.py 2691-2719):
0.4 × regional + 0.3 × energy + 0.3 × depth factor, clamped to [0.1, 1.0];
plain regional risk when no event of the last 7 days exists. -/
def calcTectonicStress (T : RealOps) (now : ℚ) (eqs : List Event)
    (lat lon : ℚ) : ℚ :=
  let regionalStress := getFastRegionalRisk T lat lon
  let recent := eqs.filter (fun e => decide (now - e.time < 604800))
  if recent = [] then regionalStress else
  let totalEnergy := (recent.map (fun e => T.pow10 (1.5 * e.magnitude + 4.8))).sum
  let energyFactor := min 1 (T.log10 (totalEnergy + 1) / 20)
  let avgDepth := mean (recent.map (fun e => e.depth))
  let depthFactor := max 0.5 (1 - avgDepth / 100)
  min 1 (max (1/10)
    (regionalStress * 0.4 + energyFactor * 0.3 + depthFactor * 0.3))

/-- Embedding of _calculate_energy_release_pattern (main.py 2721-2757):
quadratic acceleration of log cumulative energy over time-sorted events,
mapped into [0.1, 1.0]; 0.5 for fewer than 5 events.  Events are sorted by
the (time, energy) pair as sorted(zip(times, energies)) compares tuples. -/
def calcEnergyPattern (T : RealOps) (eqs : List Event) : ℚ :=
  if eqs.length < 5 then 1/2 else
  let pairs := eqs.map (fun e => (e.time, T.pow10 (1.5 * e.magnitude + 4.8)))
  let sortedPairs := List.insertionSort
    (fun a b : ℚ × ℚ => a.1 < b.1 ∨ (a.1 = b.1 ∧ a.2 ≤ b.2)) pairs
  let cumulative := cumsum (sortedPairs.map (fun p => p.2))
  if 3 ≤ cumulative.length then
    let acceleration := polyfit2Lead (cumulative.map (fun c => T.ln (c + 1)))
    min 1 (max (1/10) (1/2 + acceleration * 10))
  else 1/2

/-- Embedding of _calculate_foreshock_pattern (main.py 2759-2786): magnitude
trend over the 10 most recent events.  NOTE: the source sorts most recent
FIRST and fits the line on that descending-time order without reversing it,
so a positive fitted slope means magnitudes increasing into the past. -/
def calcForeshock (eqs : List Event) : ℚ :=
  if eqs.length < 5 then 1/10 else
  let sortedEqs := List.insertionSort (fun a b : Event => b.time ≤ a.time) eqs
  let recentMags := (sortedEqs.take 10).map (fun e => e.magnitude)
  if recentMags.length < 3 then 1/10 else
  let slope := lsqSlope recentMags
  if 0 < slope then min 1 (slope * 2) else 1/10

/-- Variant of the foreshock score following the words of the specification
and of claim C3 (take the 10 most recent events in descending time order,
REVERSED to ascending order for the fit).  Kept solely for comparison with
`calcForeshock`, which embeds what the code actually does. -/
def foreshockSpecReversed (eqs : List Event) : ℚ :=
  if eqs.length < 5 then 1/10 else
  let sortedEqs := List.insertionSort (fun a b : Event => b.time ≤ a.time) eqs
  let recentMags := ((sortedEqs.take 10).map (fun e => e.magnitude)).reverse
  if recentMags.length < 3 then 1/10 else
  let slope := lsqSlope recentMags
  if 0 < slope then min 1 (slope * 2) else 1/10

/-- Embedding of _calculate_scientific_base_probability (main.py 2788-2817)
over the 24 h / 7 d / 30 d event counts: the pre-ensemble percentage
probability, clamped to [0.01, 15.0]. -/
def calcScientificBaseProbability (c24 c7 c30 : ℕ)
    (grScore temporalScore spatialScore : ℚ) : ℚ :=
  let baseRate : ℚ := (c30 : ℚ) / 30
  let recentMultiplier : ℚ :=
    if 0 < c7 then (if 0 < baseRate then min 5 (((c7 : ℚ) / 7) / baseRate) else 1)
    else 1
  let dailyFactor := min 3 ((c24 : ℚ) + 1)
  let stressFactor := max 0.5 (2 - grScore)
  let clusteringFactor := (temporalScore + spatialScore) / 2
  min 15 (max (1/100)
    (baseRate * recentMultiplier * dailyFactor * stressFactor * clusteringFactor * 100))

/-- Embedding of _calculate_predicted_magnitude (main.py 2819-2846): mean of
the first 20 magnitudes plus half a standard deviation plus a b-value
correction, then min(max_mag + 1, max(2, ·)) and min(8, ·); default 3.0 for
the empty list. -/
def calcPredictedMagnitude (T : RealOps) (eqs : List Event) (grScore : ℚ) : ℚ :=
  if eqs = [] then 3 else
  let recentMags := (eqs.take 20).map (fun e => e.magnitude)
  if recentMags = [] then 3 else
  let meanMag := mean recentMags
  let maxMag := maxQ recentMags
  let stdMag := stdDev T recentMags
  let grCorrection := max 0 ((1 - grScore) * 0.5)
  let predicted := meanMag + stdMag * 0.5 + grCorrection
  min 8 (min (maxMag + 1) (max 2 predicted))

/-- Embedding of _assess_data_quality (main.py 2848-2872). -/
def assessDataQuality (eqs : List Event) : ℚ :=
  if eqs = [] then 0 else
  let quantityScore := min 1 ((eqs.length : ℚ) / 50)
  let times := eqs.map (fun e => e.time)
  let coverageScore :=
    if 1 < times.length then min 1 ((maxQ times - minQ times) / 86400 / 30)
    else 1/10
  let mags := eqs.map (fun e => e.magnitude)
  let magRange := if mags ≠ [] then maxQ mags - minQ mags else 0
  let completenessScore := min 1 (magRange / 3)
  (quantityScore + coverageScore + completenessScore) / 3

/-- Embedding of _determine_activity_trend (main.py 2874-2889). -/
def determineActivityTrend (c24 c7 c30 : ℕ) : String :=
  let dailyRate : ℚ := (c24 : ℚ)
  let weeklyRate : ℚ := (c7 : ℚ) / 7
  let monthlyRate : ℚ := (c30 : ℚ) / 30
  if weeklyRate * 2 < dailyRate then "rapidly_increasing"
  else if weeklyRate * 1.5 < dailyRate then "increasing"
  else if monthlyRate * 1.5 < weeklyRate then "moderately_increasing"
  else if dailyRate < weeklyRate * 0.5 then "decreasing"
  else "stable"

/-- Embedding of _detect_statistical_anomaly (main.py 2891-2911). -/
def detectStatisticalAnomaly (eqs : List Event)
    (temporalScore spatialScore : ℚ) : Bool :=
  let clusteringAnomaly := decide (7/10 < temporalScore ∧ 7/10 < spatialScore)
  let magnitudeAnomaly :=
    if 5 ≤ eqs.length then
      let recentMags := (eqs.take 5).map (fun e => e.magnitude)
      let historicalMags := (eqs.drop 5).map (fun e => e.magnitude)
      if recentMags ≠ [] ∧ historicalMags ≠ [] then
        decide (mean historicalMags + 0.5 < mean recentMags)
      else false
    else false
  clusteringAnomaly || magnitudeAnomaly

/-- The SeismicScoreBundle: the dictionary returned by
_calculate_advanced_seismic_score (main.py 2574-2589). -/
structure SeismicScore where
  gr_score : ℚ
  temporal_score : ℚ
  spatial_score : ℚ
  stress_index : ℚ
  energy_pattern : ℚ
  foreshock_score : ℚ
  base_probability : ℚ
  predicted_magnitude : ℚ
  data_quality : ℚ
  activity_trend : String
  anomaly_detected : Bool
  recent_24h_count : ℕ
  recent_7d_count : ℕ
  recent_30d_count : ℕ
  deriving DecidableEq, Repr

/-- Embedding of _calculate_advanced_seismic_score (main.py 2525-2589).
`now` is the datetime.utcnow() instant in Unix seconds. -/
def calcAdvancedSeismicScore (T : RealOps) (now : ℚ) (eqs : List Event)
    (lat lon : ℚ) : SeismicScore :=
  let recent24 := eqs.filter (fun e => decide (now - e.time < 86400))
  let recent7 := eqs.filter (fun e => decide (now - e.time < 604800))
  let recent30 := eqs.filter (fun e => decide (now - e.time < 2592000))
  let grScore := calcGutenbergRichter T eqs
  let temporalScore := calcTemporalClustering T eqs
  let spatialScore := calcSpatialClustering T eqs lat lon
  { gr_score := grScore
    temporal_score := temporalScore
    spatial_score := spatialScore
    stress_index := calcTectonicStress T now eqs lat lon
    energy_pattern := calcEnergyPattern T eqs
    foreshock_score := calcForeshock eqs
    base_probability := calcScientificBaseProbability recent24.length
      recent7.length recent30.length grScore temporalScore spatialScore
    predicted_magnitude := calcPredictedMagnitude T eqs grScore
    data_quality := assessDataQuality eqs
    activity_trend := determineActivityTrend recent24.length recent7.length
      recent30.length
    anomaly_detected := detectStatisticalAnomaly eqs temporalScore spatialScore
    recent_24h_count := recent24.length
    recent_7d_count := recent7.length
    recent_30d_count := recent30.length }

/-- Outputs of the three fitted sklearn models on the latest feature row,
treated as external oracles (the model internals are out of scope).  A
`none` stands for the corresponding try block raising, which the source
swallows (the model is then excluded from the ensemble). -/
structure ModelOracle where
  rf : Option ℚ
  xgb : Option ℚ
  anomaly : Option Bool
  deriving DecidableEq, Repr

/-- The predictions list built in predict_earthquake_probability
(main.py 2432-2446): name-tagged magnitudes of the models that succeeded. -/
def predsList (M : ModelOracle) : List (String × ℚ) :=
  (match M.rf with | some v => [("rf", v)] | none => []) ++
  (match M.xgb with | some v => [("xgb", v)] | none => [])

/-- The model weight table self.model_weights with its .get default 0.33
(main.py 2213, 2459-2462). -/
def modelWeight (name : String) : ℚ :=
  if name = "rf" then 0.4 else if name = "xgb" then 0.4
  else if name = "anomaly" then 0.2 else 0.33

/-- The ML ensemble magnitude of predict_earthquake_probability
(main.py 2457-2465): weight-averaged model outputs when any model
succeeded, else the mean of the last five magnitudes. -/
def mlMagnitude (M : ModelOracle) (eqs : List Event) : ℚ :=
  let preds := predsList M
  if preds = [] then mean ((eqs.drop (eqs.length - 5)).map (fun e => e.magnitude))
  else
    let weighted := (preds.map (fun p => p.2 * modelWeight p.1)).sum
    let total := (preds.map (fun p => modelWeight p.1)).sum
    if 0 < total then weighted / total else 3.5

/-- Embedding of _calculate_precise_probability (main.py 2913-2948); the
earthquakes / lat / lon parameters of the source are unused by its body. -/
def calcPreciseProbability (s : SeismicScore) (predictedMagnitude : ℚ)
    (isAnomaly : Bool) : ℚ :=
  let magnitudeFactor : ℚ :=
    if 6 ≤ predictedMagnitude then 2
    else if 5 ≤ predictedMagnitude then 1.5
    else if 4 ≤ predictedMagnitude then 1.2
    else 1
  let anomalyFactor : ℚ := if isAnomaly then 1.8 else 1
  let stressFactor := 1 + s.stress_index * 0.5
  let energyFactor := 0.8 + s.energy_pattern * 0.4
  let foreshockFactor := 1 + s.foreshock_score * 0.3
  min 20 (max (1/100) (s.base_probability * magnitudeFactor * anomalyFactor *
    stressFactor * energyFactor * foreshockFactor))

/-- Embedding of _calculate_prediction_confidence (main.py 2950-2972). -/
def calcPredictionConfidence (preds : List (String × ℚ)) (s : SeismicScore)
    (dataCount : ℕ) : ℚ :=
  let modelConfidence := min 1 ((preds.length : ℚ) / 3)
  let dataConfidence := s.data_quality
  let quantityConfidence := min 1 ((dataCount : ℚ) / 30)
  let temporalConfidence : ℚ :=
    if 0 < dataCount then min 1 ((s.recent_7d_count : ℚ) / 10) else 0
  min 0.999 (max 0.001 (modelConfidence * 0.3 + dataConfidence * 0.25 +
    quantityConfidence * 0.25 + temporalConfidence * 0.2))

/-- Embedding of _determine_enhanced_risk_level (main.py 2974-2996). -/
def determineEnhancedRiskLevel (probability magnitude : ℚ)
    (s : SeismicScore) : String :=
  let probScore := probability / 20
  let magScore := min 1 ((magnitude - 2) / 6)
  let anomalyScore : ℚ := if s.anomaly_detected then 0.2 else 0
  let riskScore := probScore * 0.4 + magScore * 0.3 +
    s.stress_index * 0.2 + anomalyScore * 0.1
  if 0.8 ≤ riskScore ∨ 7 ≤ magnitude then "Critical"
  else if 0.6 ≤ riskScore ∨ 6 ≤ magnitude then "High"
  else if 0.4 ≤ riskScore ∨ 5 ≤ magnitude then "Moderate"
  else if 0.2 ≤ riskScore ∨ 4 ≤ magnitude then "Low-Moderate"
  else "Low"

/-- The numeric fields of the dictionary returned by
predict_earthquake_probability on its non-empty path (main.py 2489-2519),
with the display rounding applied as in the source. -/
structure PredictionResultR where
  probability_24h : ℚ
  predicted_magnitude : ℚ
  confidence_score : ℚ
  risk_level : String
  model_status : String
  anomaly_detected : Bool
  deriving DecidableEq, Repr

/-- Result of predict_earthquake_probability: either the no-data sentinel
dictionary (main.py 2392-2406, model_status "no_earthquake_data" and the
string "No data available" in place of every numeric field) or a numeric
prediction record. -/
inductive PredictOutput where
  | noData : PredictOutput
  | result : PredictionResultR → PredictOutput
  deriving DecidableEq, Repr

def PredictOutput.modelStatus : PredictOutput → String
  | .noData => "no_earthquake_data"
  | .result r => r.model_status

/-- Numeric probability_24h of the output; none for the sentinel, whose
probability_24h is the string "No data available". -/
def PredictOutput.probability24h : PredictOutput → Option ℚ
  | .noData => none
  | .result r => some r.probability_24h

/-- Numeric predicted_magnitude of the output; none for the sentinel. -/
def PredictOutput.predictedMagnitude : PredictOutput → Option ℚ
  | .noData => none
  | .result r => some r.predicted_magnitude

/-- Numeric confidence_score of the output; none for the sentinel. -/
def PredictOutput.confidenceScore : PredictOutput → Option ℚ
  | .noData => none
  | .result r => some r.confidence_score

/-- Embedding of EarthquakeMLPredictor.predict_earthquake_probability
(main.py 2390-2519).  `isTrained` is self.is_trained; `M` holds the fitted
model outputs on the latest feature row.  For a non-empty event list the
feature matrix of extract_optimized_features has one row per event, so the
empty-features early return is unreachable and the trained branch is taken
exactly when is_trained holds. -/
def predictEarthquakeProbability (T : RealOps) (now : ℚ) (isTrained : Bool)
    (M : ModelOracle) (eqs : List Event) (lat lon : ℚ) : PredictOutput :=
  if eqs = [] then .noData else
  let s := calcAdvancedSeismicScore T now eqs lat lon
  if isTrained then
    let preds := predsList M
    let isAnomaly := M.anomaly.getD false
    let predictedMagnitude := mlMagnitude M eqs * 0.6 + s.predicted_magnitude * 0.4
    let prob := calcPreciseProbability s predictedMagnitude isAnomaly
    .result
      { probability_24h := round2 prob
        predicted_magnitude := round2 predictedMagnitude
        confidence_score := round3 (calcPredictionConfidence preds s eqs.length)
        risk_level := determineEnhancedRiskLevel prob predictedMagnitude s
        model_status := "advanced_ensemble"
        anomaly_detected := isAnomaly }
  else
    .result
      { probability_24h := round2 s.base_probability
        predicted_magnitude := round2 s.predicted_magnitude
        confidence_score := round3 0.5
        risk_level := determineEnhancedRiskLevel s.base_probability
          s.predicted_magnitude s
        model_status := "seismological_statistical"
        anomaly_detected := s.anomaly_detected }

/-- TrainedModelState of EarthquakeMLPredictor (main.py 2206-2213): the
fitted models and scaler are opaque external values. -/
structure MLState (Model Scaler : Type) where
  magnitude_predictor : Model
  gradient_booster : Model
  anomaly_detector : Model
  scaler : Scaler
  is_trained : Bool

/-- Embedding of fast_train_models (main.py 2351-2388).  `fitAll` is the
external fitting step (scaler.fit_transform plus the three sklearn fits),
which only touches the model and scaler fields; after it the source flips
is_trained to true.  Fewer than 10 events returns before touching any
state; an empty feature matrix (empty event list) also returns early. -/
def fastTrainModels {Model Scaler : Type}
    (fitAll : MLState Model Scaler → List Event → ℚ → ℚ → MLState Model Scaler)
    (st : MLState Model Scaler) (eqs : List Event) (lat lon : ℚ) :
    MLState Model Scaler :=
  if eqs.length < 10 then st
  else if eqs = [] then st
  else
    let fitted := fitAll st eqs lat lon
    { magnitude_predictor := fitted.magnitude_predictor
      gradient_booster := fitted.gradient_booster
      anomaly_detector := fitted.anomaly_detector
      scaler := fitted.scaler
      is_trained := true }

/-- The stress_risk_map lookup of _calculate_comprehensive_risk
(main.py 3984-3992), including the .get default 0.3. -/
def stressRiskMap (pattern : String) : ℚ :=
  if pattern = "escalating_sequence" then 0.8
  else if pattern = "tight_clustering" then 0.7
  else if pattern = "rapid_energy_release" then 0.9
  else if pattern = "distributed_activity" then 0.4
  else if pattern = "decreasing_activity" then 0.2
  else if pattern = "normal_background" then 0.3
  else 0.3

/-- High-risk zone table of _get_regional_risk_score (main.py 3167-3177):
(latitude, longitude, risk). -/
def highRiskZones : List (ℚ × ℚ × ℚ) :=
  [(35.7, 139.7, 0.9), (37.7, -122.4, 0.85), (36.1, 140.1, 0.9),
   (28.6, 77.2, 0.7), (41.0, 29.0, 0.8), (-6.2, 106.8, 0.75),
   (19.4, -99.1, 0.8), (-33.4, -70.6, 0.85)]

/-- Embedding of _get_regional_risk_score (main.py 3162-3187): geodesic
inverse-distance falloff within 500 km over the zone table, floor 0.1. -/
def getRegionalRiskScore (T : RealOps) (lat lon : ℚ) : ℚ :=
  highRiskZones.foldl (fun maxRisk z =>
    let d := T.geodesicKm (lat, lon) (z.1, z.2.1)
    if d < 500 then max maxRisk (z.2.2 * max 0 (1 - d / 500)) else maxRisk)
    (1/10)

/-- The `predictions` dictionary as read by _calculate_comprehensive_risk:
only numeric values under the keys it looks up matter.  `none` means the
key is absent or holds a non-numeric value. -/
structure PredictionsDict where
  probability_24h : Option ℚ
  probability_7d : Option ℚ
  confidence : Option ℚ
  deriving DecidableEq, Repr

/-- The dictionary view of a predict_earthquake_probability output: the
sentinel carries the string "No data available" in its probability field
(not a number), and neither output shape ever carries a "probability_7d"
or "confidence" key (the numeric path names its keys probability_24h and
confidence_score, main.py 2489-2519). -/
def predictionsDictOf : PredictOutput → PredictionsDict
  | .noData => ⟨none, none, none⟩
  | .result r => ⟨some r.probability_24h, none, none⟩

/-- Result record of _calculate_comprehensive_risk (main.py 4022-4034). -/
structure RiskAssessment where
  overall_risk_score : ℚ
  risk_level : String
  risk_color : String
  recent_activity : ℚ
  ml_prediction : ℚ
  stress_pattern_risk : ℚ
  regional_baseline : ℚ
  confidence_level : ℚ
  deriving DecidableEq, Repr

/-- Embedding of CombinedEarthquakeService._calculate_comprehensive_risk
(main.py 3964-4034).  `stressPattern` is the stress_pattern label of the
stress-analysis result (its .get default is "normal_background", which the
lookup table maps to the same 0.3 it already defaults to). -/
def calcComprehensiveRisk (T : RealOps) (now : ℚ) (eqs : List Event)
    (predictions : PredictionsDict) (stressPattern : String)
    (lat lon : ℚ) : RiskAssessment :=
  let recent24 := eqs.filter (fun e => decide (now - e.time < 86400))
  let recent7 := eqs.filter (fun e => decide (now - e.time < 604800))
  let activityRisk := min 0.9
    ((recent24.length : ℚ) * 0.2 + (recent7.length : ℚ) * 0.05)
  let mlRisk := predictions.probability_7d.getD 0.3
  let stressRisk := stressRiskMap stressPattern
  let regionalRisk := getRegionalRiskScore T lat lon
  let overallRisk := activityRisk * 0.3 + mlRisk * 0.4 +
    stressRisk * 0.2 + regionalRisk * 0.1
  { overall_risk_score := round3 overallRisk
    risk_level :=
      if 0.8 ≤ overallRisk then "very_high"
      else if 0.6 ≤ overallRisk then "high"
      else if 0.4 ≤ overallRisk then "moderate"
      else if 0.2 ≤ overallRisk then "low"
      else "very_low"
    risk_color :=
      if 0.8 ≤ overallRisk then "#FF0000"
      else if 0.6 ≤ overallRisk then "#FF6600"
      else if 0.4 ≤ overallRisk then "#FFA500"
      else if 0.2 ≤ overallRisk then "#FFFF00"
      else "#00FF00"
    recent_activity := round3 activityRisk
    ml_prediction := round3 mlRisk
    stress_pattern_risk := round3 stressRisk
    regional_baseline := round3 regionalRisk
    confidence_level := predictions.confidence.getD 0.5 }

lemma clamp_bounds (lo hi x : ℚ) (h : lo ≤ hi) :
    lo ≤ min hi (max lo x) ∧ min hi (max lo x) ≤ hi :=
  ⟨le_min h (le_max_left _ _), min_le_left _ _⟩

lemma clamp2_bounds (lo hi x : ℚ) (h : lo ≤ hi) :
    lo ≤ max lo (min hi x) ∧ max lo (min hi x) ≤ hi :=
  ⟨le_max_left _ _, max_le h (min_le_left _ _)⟩

lemma round2_mono {x y : ℚ} (h : x ≤ y) : round2 x ≤ round2 y := by
  unfold round2
  have hr : round (x * 100) ≤ round (y * 100) := by
    rw [round_eq, round_eq]
    exact Int.floor_mono (by linarith)
  have hc : ((round (x * 100) : ℤ) : ℚ) ≤ ((round (y * 100) : ℤ) : ℚ) :=
    Int.cast_le.mpr hr
  linarith

/-- Claim C9: calling the training operation with fewer than 10 historical
events is a no-op: the state (fitted models, scaler, is_trained flag) is
returned unchanged, so subsequent predictions still take the untrained
fallback path. -/
theorem C9_insufficient_training_noop {Model Scaler : Type}
    (fitAll : MLState Model Scaler → List Event → ℚ → ℚ → MLState Model Scaler)
    (st : MLState Model Scaler) (eqs : List Event) (lat lon : ℚ)
    (h : eqs.length < 10) :
    fastTrainModels fitAll st eqs lat lon = st := by
  unfold fastTrainModels
  rw [if_pos h]

theorem C9_insufficient_training_noop_witness :
    fastTrainModels (fun st _ _ _ => st)
      ({ magnitude_predictor := (), gradient_booster := (),
         anomaly_detector := (), scaler := (), is_trained := false } :
        MLState Unit Unit) [] 0 0
      = { magnitude_predictor := (), gradient_booster := (),
          anomaly_detector := (), scaler := (), is_trained := false } :=
  C9_insufficient_training_noop (fun st _ _ _ => st) _ [] 0 0 (by norm_num)

/-- Claim C5: the prediction returns the no-data sentinel exactly for the
empty event list; the sentinel is the distinct model_status
"no_earthquake_data" shape carrying no numeric probability, magnitude or
confidence, so callers can always tell it apart from a numeric low-risk
result. -/
theorem C5_no_data_sentinel (T : RealOps) (now : ℚ) (isTrained : Bool)
    (M : ModelOracle) (eqs : List Event) (lat lon : ℚ) :
    (predictEarthquakeProbability T now isTrained M eqs lat lon =
      PredictOutput.noData ↔ eqs = []) ∧
    PredictOutput.modelStatus PredictOutput.noData = "no_earthquake_data" ∧
    PredictOutput.probability24h PredictOutput.noData = none ∧
    PredictOutput.predictedMagnitude PredictOutput.noData = none ∧
    PredictOutput.confidenceScore PredictOutput.noData = none := by
  refine ⟨⟨?_, ?_⟩, rfl, rfl, rfl, rfl⟩
  · intro h
    by_contra hne
    unfold predictEarthquakeProbability at h
    rw [if_neg hne] at h
    cases isTrained <;> simp at h
  · intro h
    subst h
    unfold predictEarthquakeProbability
    rw [if_pos rfl]

/-- Claim C4, amended: the aggregate risk score is
0.3 × activity + 0.4 × ml_risk + 0.2 × stress + 0.1 × regional with the
stated activity clamp, stress lookup and label thresholds — but ml_risk is
predictions.get("probability_7d", 0.3), and no output of the Ensemble
Predictor carries a probability_7d key, so ml_risk is the constant 0.3
regardless of the predicted probability. -/
theorem C4_risk_aggregation_formula (T : RealOps) (now : ℚ)
    (eqs : List Event) (out : PredictOutput) (stressPattern : String)
    (lat lon : ℚ) :
    let c24 := (eqs.filter (fun e => decide (now - e.time < 86400))).length
    let c7 := (eqs.filter (fun e => decide (now - e.time < 604800))).length
    let activityRisk := min 0.9 ((c24 : ℚ) * 0.2 + (c7 : ℚ) * 0.05)
    let overall := activityRisk * 0.3 + (0.3 : ℚ) * 0.4 +
      stressRiskMap stressPattern * 0.2 + getRegionalRiskScore T lat lon * 0.1
    let r := calcComprehensiveRisk T now eqs (predictionsDictOf out)
      stressPattern lat lon
    r.overall_risk_score = round3 overall ∧
    r.ml_prediction = round3 (0.3 : ℚ) ∧
    r.recent_activity = round3 activityRisk ∧
    r.stress_pattern_risk = round3 (stressRiskMap stressPattern) ∧
    r.regional_baseline = round3 (getRegionalRiskScore T lat lon) ∧
    r.risk_level = (if 0.8 ≤ overall then "very_high"
      else if 0.6 ≤ overall then "high"
      else if 0.4 ≤ overall then "moderate"
      else if 0.2 ≤ overall then "low"
      else "very_low") := by
  cases out <;>
    exact ⟨rfl, rfl, rfl, rfl, rfl, rfl⟩

/-- Concrete real-function oracle for the closed scenarios below.  Where a
scenario depends on an oracle value (rather than only on a clamp), the
argument passed is one at which the chosen value coincides with the true
real function: sqrt is applied only to 0 there, and sqrt 0 = 0. -/
def T0 : RealOps :=
  { sqrt := id, log10 := fun _ => 0, ln := fun _ => 0, pow10 := fun _ => 0,
    geodesicKm := fun _ _ => 0 }

/-- Model oracle for the untrained scenarios: no fitted model output. -/
def M0 : ModelOracle := ⟨none, none, none⟩

def cexOut1 : PredictOutput :=
  .result ⟨20, 5, 1/2, "High", "advanced_ensemble", false⟩

def cexOut2 : PredictOutput :=
  .result ⟨1/100, 3, 1/2, "Low", "seismological_statistical", false⟩

/-- Claim C4, counterexample to "ml_risk is taken from the Ensemble
Predictor's output": two ensemble outputs whose predicted probabilities
differ (20 versus 0.01) produce the identical risk assessment, whose ml
component is the constant 0.3. -/
theorem C4_counterexample :
    cexOut1.probability24h ≠ cexOut2.probability24h ∧
    calcComprehensiveRisk T0 0 [] (predictionsDictOf cexOut1)
        "normal_background" 0 0 =
      calcComprehensiveRisk T0 0 [] (predictionsDictOf cexOut2)
        "normal_background" 0 0 ∧
    (calcComprehensiveRisk T0 0 [] (predictionsDictOf cexOut1)
        "normal_background" 0 0).ml_prediction = 3/10 := by
  refine ⟨?_, rfl, ?_⟩
  · intro h
    simp [cexOut1, cexOut2, PredictOutput.probability24h] at h
    norm_num at h
  · norm_num [calcComprehensiveRisk, predictionsDictOf, cexOut1, round3, round_eq]

lemma fastRegionalStep_bounds (T : RealOps)
    (hsqrt : ∀ x : ℚ, 0 ≤ x → 0 ≤ T.sqrt x) (lat lon : ℚ)
    (z : ℚ × ℚ × ℚ) (acc : ℚ) (hz0 : 0 ≤ z.2.2) (hz9 : z.2.2 ≤ 9/10)
    (hacc1 : 1/10 ≤ acc) (hacc9 : acc ≤ 9/10) :
    1/10 ≤ fastRegionalStep T lat lon acc z ∧
    fastRegionalStep T lat lon acc z ≤ 9/10 := by
  unfold fastRegionalStep
  dsimp only
  have hd0 : 0 ≤ T.sqrt ((lat - z.1) ^ 2 + (lon - z.2.1) ^ 2) * 111 := by
    have := hsqrt ((lat - z.1) ^ 2 + (lon - z.2.1) ^ 2) (by positivity)
    linarith
  split_ifs with h
  · refine ⟨le_trans hacc1 (le_max_left _ _), max_le hacc9 ?_⟩
    have hm1 : max 0 (1 - T.sqrt ((lat - z.1) ^ 2 + (lon - z.2.1) ^ 2) * 111 / 500) ≤ 1 := by
      apply max_le (by norm_num)
      have : 0 ≤ T.sqrt ((lat - z.1) ^ 2 + (lon - z.2.1) ^ 2) * 111 / 500 := by linarith
      linarith
    calc z.2.2 * max 0 (1 - T.sqrt ((lat - z.1) ^ 2 + (lon - z.2.1) ^ 2) * 111 / 500)
        ≤ z.2.2 * 1 := mul_le_mul_of_nonneg_left hm1 hz0
      _ ≤ 9/10 := by linarith
  · exact ⟨hacc1, hacc9⟩

lemma regional_foldl_bounds (T : RealOps)
    (hsqrt : ∀ x : ℚ, 0 ≤ x → 0 ≤ T.sqrt x) (lat lon : ℚ) :
    ∀ (zones : List (ℚ × ℚ × ℚ)) (acc : ℚ),
      (∀ z ∈ zones, 0 ≤ z.2.2 ∧ z.2.2 ≤ 9/10) →
      1/10 ≤ acc → acc ≤ 9/10 →
      1/10 ≤ zones.foldl (fastRegionalStep T lat lon) acc ∧
      zones.foldl (fastRegionalStep T lat lon) acc ≤ 9/10 := by
  intro zones
  induction zones with
  | nil => exact fun acc _ h1 h2 => ⟨h1, h2⟩
  | cons z rest ih =>
    intro acc hz hacc1 hacc9
    rw [List.foldl_cons]
    have hstep := fastRegionalStep_bounds T hsqrt lat lon z acc
      (hz z (by simp)).1 (hz z (by simp)).2 hacc1 hacc9
    exact ih _ (fun w hw => hz w (by simp [hw])) hstep.1 hstep.2

lemma getFastRegionalRisk_bounds (T : RealOps)
    (hsqrt : ∀ x : ℚ, 0 ≤ x → 0 ≤ T.sqrt x) (lat lon : ℚ) :
    1/10 ≤ getFastRegionalRisk T lat lon ∧ getFastRegionalRisk T lat lon ≤ 9/10 := by
  unfold getFastRegionalRisk
  apply regional_foldl_bounds T hsqrt lat lon highRiskZonesFast (1/10)
  · intro z hz
    fin_cases hz <;> norm_num
  · norm_num
  · norm_num

lemma calcGutenbergRichter_bounds (T : RealOps) (eqs : List Event) :
    1/10 ≤ calcGutenbergRichter T eqs ∧ calcGutenbergRichter T eqs ≤ 2 := by
  unfold calcGutenbergRichter
  dsimp only
  split_ifs <;> exact ⟨by norm_num, by norm_num⟩

lemma calcTemporalClustering_bounds (T : RealOps) (eqs : List Event) :
    1/10 ≤ calcTemporalClustering T eqs ∧ calcTemporalClustering T eqs ≤ 1 := by
  unfold calcTemporalClustering
  dsimp only
  split_ifs <;> exact ⟨by norm_num, by norm_num⟩

lemma calcSpatialClustering_bounds (T : RealOps) (eqs : List Event)
    (lat lon : ℚ) :
    1/10 ≤ calcSpatialClustering T eqs lat lon ∧
    calcSpatialClustering T eqs lat lon ≤ 1 := by
  unfold calcSpatialClustering
  dsimp only
  split_ifs <;> exact ⟨by norm_num, by norm_num⟩

lemma calcTectonicStress_bounds (T : RealOps)
    (hsqrt : ∀ x : ℚ, 0 ≤ x → 0 ≤ T.sqrt x) (now : ℚ) (eqs : List Event)
    (lat lon : ℚ) :
    1/10 ≤ calcTectonicStress T now eqs lat lon ∧
    calcTectonicStress T now eqs lat lon ≤ 1 := by
  unfold calcTectonicStress
  dsimp only
  have hreg := getFastRegionalRisk_bounds T hsqrt lat lon
  split_ifs
  · exact ⟨hreg.1, le_trans hreg.2 (by norm_num)⟩
  · exact clamp_bounds (1/10) 1 _ (by norm_num)

lemma calcEnergyPattern_bounds (T : RealOps) (eqs : List Event) :
    1/10 ≤ calcEnergyPattern T eqs ∧ calcEnergyPattern T eqs ≤ 1 := by
  unfold calcEnergyPattern
  dsimp only
  split_ifs <;> exact ⟨by norm_num, by norm_num⟩

lemma calcForeshock_bounds (eqs : List Event) :
    0 < calcForeshock eqs ∧ calcForeshock eqs ≤ 1 := by
  unfold calcForeshock
  dsimp only
  split_ifs with h1 h2 h3
  · exact ⟨by norm_num, by norm_num⟩
  · exact ⟨by norm_num, by norm_num⟩
  · refine ⟨lt_min (by norm_num) (by linarith), min_le_left _ _⟩
  · exact ⟨by norm_num, by norm_num⟩

lemma score_gr_eq (T : RealOps) (now : ℚ) (eqs : List Event) (lat lon : ℚ) :
    (calcAdvancedSeismicScore T now eqs lat lon).gr_score
      = calcGutenbergRichter T eqs := rfl

lemma score_temporal_eq (T : RealOps) (now : ℚ) (eqs : List Event) (lat lon : ℚ) :
    (calcAdvancedSeismicScore T now eqs lat lon).temporal_score
      = calcTemporalClustering T eqs := rfl

lemma score_spatial_eq (T : RealOps) (now : ℚ) (eqs : List Event) (lat lon : ℚ) :
    (calcAdvancedSeismicScore T now eqs lat lon).spatial_score
      = calcSpatialClustering T eqs lat lon := rfl

lemma score_stress_eq (T : RealOps) (now : ℚ) (eqs : List Event) (lat lon : ℚ) :
    (calcAdvancedSeismicScore T now eqs lat lon).stress_index
      = calcTectonicStress T now eqs lat lon := rfl

lemma score_energy_eq (T : RealOps) (now : ℚ) (eqs : List Event) (lat lon : ℚ) :
    (calcAdvancedSeismicScore T now eqs lat lon).energy_pattern
      = calcEnergyPattern T eqs := rfl

lemma score_foreshock_eq (T : RealOps) (now : ℚ) (eqs : List Event) (lat lon : ℚ) :
    (calcAdvancedSeismicScore T now eqs lat lon).foreshock_score
      = calcForeshock eqs := rfl

lemma score_magnitude_eq (T : RealOps) (now : ℚ) (eqs : List Event) (lat lon : ℚ) :
    (calcAdvancedSeismicScore T now eqs lat lon).predicted_magnitude
      = calcPredictedMagnitude T eqs (calcGutenbergRichter T eqs) := rfl

/-- Claim C2, amended: for every valid input (including the empty and the
single-event list) gr_score lies in [0.1, 2.0] and temporal_score,
spatial_score, stress_index and energy_pattern each lie in [0.1, 1.0];
foreshock_score, however, is only guaranteed to lie in (0, 1.0]: a positive
fitted slope yields min(1.0, slope × 2.0) with no lower clamp, which for a
small positive slope falls below 0.1. -/
theorem C2_score_clamps (T : RealOps)
    (hsqrt : ∀ x : ℚ, 0 ≤ x → 0 ≤ T.sqrt x)
    (now : ℚ) (eqs : List Event) (lat lon : ℚ) :
    (1/10 ≤ (calcAdvancedSeismicScore T now eqs lat lon).gr_score ∧
      (calcAdvancedSeismicScore T now eqs lat lon).gr_score ≤ 2) ∧
    (1/10 ≤ (calcAdvancedSeismicScore T now eqs lat lon).temporal_score ∧
      (calcAdvancedSeismicScore T now eqs lat lon).temporal_score ≤ 1) ∧
    (1/10 ≤ (calcAdvancedSeismicScore T now eqs lat lon).spatial_score ∧
      (calcAdvancedSeismicScore T now eqs lat lon).spatial_score ≤ 1) ∧
    (1/10 ≤ (calcAdvancedSeismicScore T now eqs lat lon).stress_index ∧
      (calcAdvancedSeismicScore T now eqs lat lon).stress_index ≤ 1) ∧
    (1/10 ≤ (calcAdvancedSeismicScore T now eqs lat lon).energy_pattern ∧
      (calcAdvancedSeismicScore T now eqs lat lon).energy_pattern ≤ 1) ∧
    (0 < (calcAdvancedSeismicScore T now eqs lat lon).foreshock_score ∧
      (calcAdvancedSeismicScore T now eqs lat lon).foreshock_score ≤ 1) := by
  rw [score_gr_eq, score_temporal_eq, score_spatial_eq, score_stress_eq,
    score_energy_eq, score_foreshock_eq]
  exact ⟨calcGutenbergRichter_bounds T eqs,
    calcTemporalClustering_bounds T eqs,
    calcSpatialClustering_bounds T eqs lat lon,
    calcTectonicStress_bounds T hsqrt now eqs lat lon,
    calcEnergyPattern_bounds T eqs,
    calcForeshock_bounds eqs⟩

theorem C2_score_clamps_witness :
    (1/10 ≤ (calcAdvancedSeismicScore T0 0 [] 0 0).gr_score ∧
      (calcAdvancedSeismicScore T0 0 [] 0 0).gr_score ≤ 2) ∧
    (1/10 ≤ (calcAdvancedSeismicScore T0 0 [] 0 0).temporal_score ∧
      (calcAdvancedSeismicScore T0 0 [] 0 0).temporal_score ≤ 1) ∧
    (1/10 ≤ (calcAdvancedSeismicScore T0 0 [] 0 0).spatial_score ∧
      (calcAdvancedSeismicScore T0 0 [] 0 0).spatial_score ≤ 1) ∧
    (1/10 ≤ (calcAdvancedSeismicScore T0 0 [] 0 0).stress_index ∧
      (calcAdvancedSeismicScore T0 0 [] 0 0).stress_index ≤ 1) ∧
    (1/10 ≤ (calcAdvancedSeismicScore T0 0 [] 0 0).energy_pattern ∧
      (calcAdvancedSeismicScore T0 0 [] 0 0).energy_pattern ≤ 1) ∧
    (0 < (calcAdvancedSeismicScore T0 0 [] 0 0).foreshock_score ∧
      (calcAdvancedSeismicScore T0 0 [] 0 0).foreshock_score ≤ 1) :=
  C2_score_clamps T0 (fun _ hx => hx) 0 [] 0 0

/-- Five events whose magnitudes decrease by 0.01 per step in real time,
so the descending-time order fitted by the code has the small positive
slope 0.01. -/
def c2Events : List Event :=
  [⟨1.04, 0, 0, 10, 0⟩, ⟨1.03, 0, 0, 10, 1⟩, ⟨1.02, 0, 0, 10, 2⟩,
   ⟨1.01, 0, 0, 10, 3⟩, ⟨1.0, 0, 0, 10, 4⟩]

/-- Claim C2, counterexample to the original statement: on c2Events the
computed bundle has foreshock_score = 0.02, below the documented lower
clamp 0.1. -/
theorem C2_counterexample :
    (calcAdvancedSeismicScore T0 0 c2Events 0 0).foreshock_score = 1/50 ∧
    ¬ (1/10 ≤ (calcAdvancedSeismicScore T0 0 c2Events 0 0).foreshock_score) := by
  have h : (calcAdvancedSeismicScore T0 0 c2Events 0 0).foreshock_score
      = calcForeshock c2Events := rfl
  have hr : List.range 5 = [0, 1, 2, 3, 4] := by decide
  have hv : calcForeshock c2Events = 1/50 := by
    norm_num [calcForeshock, c2Events, List.insertionSort, List.orderedInsert,
      lsqSlope, lsqSlopeXY, indexList, hr]
  rw [h, hv]
  norm_num

/-- Five events whose magnitudes increase by 0.2 per step in real time: a
textbook foreshock-like escalation. -/
def c3Events : List Event :=
  [⟨1, 0, 0, 10, 0⟩, ⟨1.2, 0, 0, 10, 1⟩, ⟨1.4, 0, 0, 10, 2⟩,
   ⟨1.6, 0, 0, 10, 3⟩, ⟨1.8, 0, 0, 10, 4⟩]

/-- Claim C3: on magnitudes rising in real time the code returns the
non-positive-slope default 0.1 because it fits the most-recent-first list
WITHOUT reversing it to ascending order, while the fit described by the
specification (reversed to ascending) yields min(1, 0.2 × 2) = 0.4.  This
contradicts the code comment, which reads the positive slope as increasing
magnitudes toward the present. -/
theorem C3_foreshock_not_reversed :
    calcForeshock c3Events = 1/10 ∧ foreshockSpecReversed c3Events = 2/5 := by
  have hr : List.range 5 = [0, 1, 2, 3, 4] := by decide
  constructor
  · norm_num [calcForeshock, c3Events, List.insertionSort, List.orderedInsert,
      lsqSlope, lsqSlopeXY, indexList, hr]
  · norm_num [foreshockSpecReversed, c3Events, List.insertionSort,
      List.orderedInsert, lsqSlope, lsqSlopeXY, indexList, hr]

lemma calcScientificBaseProbability_bounds (c24 c7 c30 : ℕ)
    (g t sp : ℚ) :
    1/100 ≤ calcScientificBaseProbability c24 c7 c30 g t sp ∧
    calcScientificBaseProbability c24 c7 c30 g t sp ≤ 15 := by
  unfold calcScientificBaseProbability
  dsimp only
  exact clamp_bounds (1/100) 15 _ (by norm_num)

lemma score_baseProb_bounds (T : RealOps) (now : ℚ) (eqs : List Event)
    (lat lon : ℚ) :
    1/100 ≤ (calcAdvancedSeismicScore T now eqs lat lon).base_probability ∧
    (calcAdvancedSeismicScore T now eqs lat lon).base_probability ≤ 15 := by
  have h : (calcAdvancedSeismicScore T now eqs lat lon).base_probability
      = calcScientificBaseProbability
        (eqs.filter (fun e => decide (now - e.time < 86400))).length
        (eqs.filter (fun e => decide (now - e.time < 604800))).length
        (eqs.filter (fun e => decide (now - e.time < 2592000))).length
        (calcGutenbergRichter T eqs) (calcTemporalClustering T eqs)
        (calcSpatialClustering T eqs lat lon) := rfl
  rw [h]
  exact calcScientificBaseProbability_bounds _ _ _ _ _ _

lemma calcPreciseProbability_bounds (s : SeismicScore)
    (predictedMagnitude : ℚ) (isAnomaly : Bool) :
    1/100 ≤ calcPreciseProbability s predictedMagnitude isAnomaly ∧
    calcPreciseProbability s predictedMagnitude isAnomaly ≤ 20 := by
  unfold calcPreciseProbability
  dsimp only
  exact clamp_bounds (1/100) 20 _ (by norm_num)

lemma calcPredictedMagnitude_bounds (T : RealOps) (eqs : List Event)
    (grScore : ℚ) (hne : eqs ≠ [])
    (hmax : 1 ≤ maxQ ((eqs.take 20).map (fun e => e.magnitude))) :
    2 ≤ calcPredictedMagnitude T eqs grScore ∧
    calcPredictedMagnitude T eqs grScore ≤ 8 := by
  unfold calcPredictedMagnitude
  rw [if_neg hne]
  dsimp only
  have hrm : ¬ ((eqs.take 20).map (fun e => e.magnitude) = []) := by
    simp [hne]
  rw [if_neg hrm]
  constructor
  · refine le_min (by norm_num) (le_min ?_ (le_max_left _ _))
    linarith
  · exact min_le_left _ _

lemma round2_low : round2 (1/100) = 1/100 := by norm_num [round2, round_eq]

lemma round2_fifteen : round2 15 = 15 := by norm_num [round2, round_eq]

lemma round2_twenty : round2 20 = 20 := by norm_num [round2, round_eq]

lemma round2_two : round2 2 = 2 := by norm_num [round2, round_eq]

lemma round2_eight : round2 8 = 8 := by norm_num [round2, round_eq]

/-- Claim C1, amended: for every non-empty event list, probability_24h of
the prediction lies in [0.01, 20.0] unconditionally, in both the trained
and the untrained state.  predicted_magnitude lies in [2.0, 8.0] provided
the maximum magnitude among the 20 most recent events is at least 1.0
(otherwise the min(max_mag + 1, ·) cap pushes below 2.0) and, in the
trained state, the ML ensemble magnitude also lies in [2.0, 8.0] (the
60 % / 40 % blend of two values in [2, 8] stays in [2, 8]). -/
theorem C1_prediction_bounds (T : RealOps) (now : ℚ) (isTrained : Bool)
    (M : ModelOracle) (eqs : List Event) (lat lon : ℚ)
    (hne : eqs ≠ []) :
    ∃ r, predictEarthquakeProbability T now isTrained M eqs lat lon
        = PredictOutput.result r ∧
      1/100 ≤ r.probability_24h ∧ r.probability_24h ≤ 20 ∧
      (1 ≤ maxQ ((eqs.take 20).map (fun e => e.magnitude)) →
        (isTrained = true → 2 ≤ mlMagnitude M eqs ∧ mlMagnitude M eqs ≤ 8) →
        2 ≤ r.predicted_magnitude ∧ r.predicted_magnitude ≤ 8) := by
  have hsm := score_magnitude_eq T now eqs lat lon
  have hbp := score_baseProb_bounds T now eqs lat lon
  unfold predictEarthquakeProbability
  rw [if_neg hne]
  dsimp only
  cases isTrained with
  | false =>
    simp only [Bool.false_eq_true, if_false]
    refine ⟨_, rfl, ?_, ?_, ?_⟩
    · calc (1/100 : ℚ) = round2 (1/100) := round2_low.symm
        _ ≤ _ := round2_mono hbp.1
    · calc round2 (calcAdvancedSeismicScore T now eqs lat lon).base_probability
          ≤ round2 15 := round2_mono hbp.2
        _ = 15 := round2_fifteen
        _ ≤ 20 := by norm_num
    · intro hmax _
      have hmagb := calcPredictedMagnitude_bounds T eqs
        (calcGutenbergRichter T eqs) hne hmax
      constructor
      · calc (2 : ℚ) = round2 2 := round2_two.symm
          _ ≤ _ := round2_mono (by rw [hsm]; exact hmagb.1)
      · calc round2 (calcAdvancedSeismicScore T now eqs lat lon).predicted_magnitude
            ≤ round2 8 := round2_mono (by rw [hsm]; exact hmagb.2)
          _ = 8 := round2_eight
  | true =>
    simp only [if_true]
    have hpp := calcPreciseProbability_bounds
      (calcAdvancedSeismicScore T now eqs lat lon)
      (mlMagnitude M eqs * 0.6 +
        (calcAdvancedSeismicScore T now eqs lat lon).predicted_magnitude * 0.4)
      (M.anomaly.getD false)
    refine ⟨_, rfl, ?_, ?_, ?_⟩
    · calc (1/100 : ℚ) = round2 (1/100) := round2_low.symm
        _ ≤ _ := round2_mono hpp.1
    · calc round2 _ ≤ round2 20 := round2_mono hpp.2
        _ = 20 := round2_twenty
    · intro hmax hml
      obtain ⟨hml1, hml2⟩ := hml (by trivial)
      have hmagb := calcPredictedMagnitude_bounds T eqs
        (calcGutenbergRichter T eqs) hne hmax
      have hblend1 : 2 ≤ mlMagnitude M eqs * 0.6 +
          (calcAdvancedSeismicScore T now eqs lat lon).predicted_magnitude * 0.4 := by
        rw [hsm]
        nlinarith [hmagb.1]
      have hblend2 : mlMagnitude M eqs * 0.6 +
          (calcAdvancedSeismicScore T now eqs lat lon).predicted_magnitude * 0.4 ≤ 8 := by
        rw [hsm]
        nlinarith [hmagb.2]
      constructor
      · calc (2 : ℚ) = round2 2 := round2_two.symm
          _ ≤ _ := round2_mono hblend1
      · calc round2 _ ≤ round2 8 := round2_mono hblend2
          _ = 8 := round2_eight

def w1Event : Event := ⟨3, 0, 0, 10, 0⟩

theorem C1_prediction_bounds_witness :
    ∃ r, predictEarthquakeProbability T0 0 false M0 [w1Event] 0 0
        = PredictOutput.result r ∧
      1/100 ≤ r.probability_24h ∧ r.probability_24h ≤ 20 ∧
      (1 ≤ maxQ (([w1Event].take 20).map (fun e => e.magnitude)) →
        (false = true → 2 ≤ mlMagnitude M0 [w1Event] ∧ mlMagnitude M0 [w1Event] ≤ 8) →
        2 ≤ r.predicted_magnitude ∧ r.predicted_magnitude ≤ 8) :=
  C1_prediction_bounds T0 0 false M0 [w1Event] 0 0 (by simp)

def c1Event : Event := ⟨0, 0, 0, 10, 0⟩

/-- Claim C1, counterexample to the original statement: a single observed
event of magnitude 0 gives, in the untrained state, a predicted magnitude
of 1.0, outside [2.0, 8.0] (the min(max_mag + 1, ·) cap is 1.0 here). -/
theorem C1_counterexample :
    PredictOutput.predictedMagnitude
      (predictEarthquakeProbability T0 0 false M0 [c1Event] 0 0) = some 1 ∧
    ¬ (2 ≤ (1 : ℚ)) := by
  constructor
  · have h : PredictOutput.predictedMagnitude
        (predictEarthquakeProbability T0 0 false M0 [c1Event] 0 0)
        = some (round2 (calcPredictedMagnitude T0 [c1Event]
            (calcGutenbergRichter T0 [c1Event]))) := rfl
    have hgr : calcGutenbergRichter T0 [c1Event] = 1 := by
      norm_num [calcGutenbergRichter]
    have hm : calcPredictedMagnitude T0 [c1Event] 1 = 1 := by
      norm_num [calcPredictedMagnitude, c1Event, mean, variance, stdDev,
        maxQ, List.max?, T0]
    rw [h, hgr, hm]
    norm_num [round2, round_eq]
  · norm_num

/-- Claim C8, amended: in the untrained state with a non-empty event list,
the prediction has model_status "seismological_statistical", its
probability and predicted magnitude are the seismological bundle's
base_probability and predicted_magnitude (display-rounded to 2 decimals),
and its anomaly flag is the bundle's — but the confidence score is the
CONSTANT 0.5: the untrained branch never calls the confidence calculation,
so confidence is not derived from the data_quality or data-quantity
terms. -/
theorem C8_untrained_output (T : RealOps) (now : ℚ) (M : ModelOracle)
    (eqs : List Event) (lat lon : ℚ) (hne : eqs ≠ []) :
    predictEarthquakeProbability T now false M eqs lat lon =
      PredictOutput.result
        { probability_24h :=
            round2 (calcAdvancedSeismicScore T now eqs lat lon).base_probability
          predicted_magnitude :=
            round2 (calcAdvancedSeismicScore T now eqs lat lon).predicted_magnitude
          confidence_score := 1/2
          risk_level := determineEnhancedRiskLevel
            (calcAdvancedSeismicScore T now eqs lat lon).base_probability
            (calcAdvancedSeismicScore T now eqs lat lon).predicted_magnitude
            (calcAdvancedSeismicScore T now eqs lat lon)
          model_status := "seismological_statistical"
          anomaly_detected :=
            (calcAdvancedSeismicScore T now eqs lat lon).anomaly_detected } := by
  have hc : round3 0.5 = (1/2 : ℚ) := by norm_num [round3, round_eq]
  unfold predictEarthquakeProbability
  rw [if_neg hne]
  dsimp only
  simp only [Bool.false_eq_true, if_false]
  rw [hc]

def c8Events : List Event :=
  [⟨3, 0, 0, 10, 0⟩, ⟨3, 0, 0, 10, 3600⟩, ⟨3, 0, 0, 10, 7200⟩]

theorem C8_untrained_output_witness :
    predictEarthquakeProbability T0 7200 false M0 c8Events 0 0 =
      PredictOutput.result
        { probability_24h :=
            round2 (calcAdvancedSeismicScore T0 7200 c8Events 0 0).base_probability
          predicted_magnitude :=
            round2 (calcAdvancedSeismicScore T0 7200 c8Events 0 0).predicted_magnitude
          confidence_score := 1/2
          risk_level := determineEnhancedRiskLevel
            (calcAdvancedSeismicScore T0 7200 c8Events 0 0).base_probability
            (calcAdvancedSeismicScore T0 7200 c8Events 0 0).predicted_magnitude
            (calcAdvancedSeismicScore T0 7200 c8Events 0 0)
          model_status := "seismological_statistical"
          anomaly_detected :=
            (calcAdvancedSeismicScore T0 7200 c8Events 0 0).anomaly_detected } :=
  C8_untrained_output T0 7200 M0 c8Events 0 0 (by simp [c8Events])

/-- Claim C8, counterexample to the original confidence statement: on three
untrained input events the returned confidence is the constant 0.5, while
the value derived purely from the data_quality and data-quantity terms
with no model-agreement contribution (the confidence calculation with an
empty predictions list, as the output is rounded) is 0.09 ≠ 0.5. -/
theorem C8_counterexample :
    PredictOutput.confidenceScore
      (predictEarthquakeProbability T0 7200 false M0 c8Events 0 0)
      = some (1/2) ∧
    round3 (calcPredictionConfidence []
      (calcAdvancedSeismicScore T0 7200 c8Events 0 0) c8Events.length)
      = 9/100 ∧
    (9/100 : ℚ) ≠ 1/2 := by
  refine ⟨?_, ?_, by norm_num⟩
  · have h : PredictOutput.confidenceScore
        (predictEarthquakeProbability T0 7200 false M0 c8Events 0 0)
        = some (round3 0.5) := rfl
    rw [h]
    norm_num [round3, round_eq]
  · have h1 : (calcAdvancedSeismicScore T0 7200 c8Events 0 0).data_quality
        = assessDataQuality c8Events := rfl
    have h2 : (calcAdvancedSeismicScore T0 7200 c8Events 0 0).recent_7d_count
        = (c8Events.filter
            (fun e => decide ((7200 : ℚ) - e.time < 604800))).length := rfl
    have h3 : assessDataQuality c8Events = 113/5400 := by
      norm_num [assessDataQuality, c8Events, maxQ, minQ, List.max?, List.min?,
        List.cons_ne_nil, min_def, max_def]
    have h4 : (c8Events.filter
        (fun e => decide ((7200 : ℚ) - e.time < 604800))).length = 3 := by
      norm_num [c8Events, List.filter]
    have h5 : c8Events.length = 3 := rfl
    unfold calcPredictionConfidence
    dsimp only
    rw [h1, h2, h3, h4, h5]
    norm_num [round3, round_eq, min_def, max_def]
